import Mathlib

/-!
Verification of the Snippetbox request-handler flow
(`src/snippetbox/cmd/web/handlers.go`).

The handlers file is the only source file present.  The packages it calls
into (`internal/validator`, `internal/models`, the `cmd/web` helpers and
the session manager) are modelled here: the validator and models packages
from the specification (they are repository code not present under
`src/`), the session manager from the collaborator contract the
specification states for it (Put, GetString, GetInt, Remove, RenewToken).

Each HTTP handler is embedded as a pure function from a `World` (session
state, user table, snippet table) plus the decoded form data to a `HOut`:
the HTTP response, the updated world, and a trace of the session and
data-access operations the handler performed, in order.
-/

namespace Snippetbox

/-- A value stored under a session key: the handlers store strings
(flash, targetURL) and ints (authenticatedUserID). -/
inductive SessVal where
  | str (s : String)
  | int (i : Int)
deriving DecidableEq, Repr

/-- Modelled from the spec: the session collaborator keeps opaque
key-value state per session, keyed by a session identifier (`token`)
that can be rotated while preserving the data. -/
structure Session where
  token : Nat
  data : List (String × SessVal)
deriving DecidableEq, Repr

/-- First value stored under a key in an association list. -/
def lookupKey : List (String × SessVal) → String → Option SessVal
  | [], _ => none
  | p :: ps, k => if p.1 = k then some p.2 else lookupKey ps k

/-- Drop every entry stored under a key from an association list. -/
def removeKey : List (String × SessVal) → String → List (String × SessVal)
  | [], _ => []
  | p :: ps, k => if p.1 = k then removeKey ps k else p :: removeKey ps k

/-- Look a key up in the session data. -/
def Session.get (s : Session) (k : String) : Option SessVal :=
  lookupKey s.data k

/-- Modelled from the spec: `Put` stores a value under a key,
overwriting any previous value. -/
def Session.put (s : Session) (k : String) (v : SessVal) : Session :=
  { s with data := (k, v) :: removeKey s.data k }

/-- Modelled from the spec: `Remove` deletes a key and its value. -/
def Session.remove (s : Session) (k : String) : Session :=
  { s with data := removeKey s.data k }

/-- Modelled from the spec: `RenewToken` rotates the session identifier
while preserving the session contents (`newTok` is the fresh
identifier supplied by the environment). -/
def Session.renewToken (s : Session) (newTok : Nat) : Session :=
  { s with token := newTok }

/-- Modelled from the spec: `GetString` returns the string stored under
the key, or the empty string when the key is absent or holds a
non-string. -/
def Session.getString (s : Session) (k : String) : String :=
  match s.get k with
  | some (.str v) => v
  | _ => ""

/-- Modelled from the spec: `GetInt` returns the int stored under the
key, or 0 when the key is absent or holds a non-int. -/
def Session.getInt (s : Session) (k : String) : Int :=
  match s.get k with
  | some (.int v) => v
  | _ => 0

/-!  The validator package (`internal/validator`), modelled from the
specification section 4.1: it accumulates field-scoped and form-scoped
validation failures and reports overall validity. -/

/-- Modelled from the spec: `internal/validator` is repository code not
present under `src/`.  A `Validator` holds a set of field-keyed error
messages and a set of non-field error messages. -/
structure Validator where
  fieldErrors : List (String × String)
  nonFieldErrors : List String
deriving DecidableEq, Repr

/-- The zero value of the validator: no errors of either kind.  A freshly
decoded form embeds this value. -/
def Validator.empty : Validator := ⟨[], []⟩

/-- Modelled from the spec: `AddFieldError` associates a message with a
field; the first message per field wins, later calls for an
already-failed field are ignored. -/
def Validator.AddFieldError (v : Validator) (field msg : String) : Validator :=
  match v.fieldErrors.find? (fun p => p.1 = field) with
  | some _ => v
  | none => { v with fieldErrors := v.fieldErrors ++ [(field, msg)] }

/-- Modelled from the spec: `AddNonFieldError` records a form-scoped
error message. -/
def Validator.AddNonFieldError (v : Validator) (msg : String) : Validator :=
  { v with nonFieldErrors := v.nonFieldErrors ++ [msg] }

/-- Modelled from the spec: `CheckField(ok, field, message)` associates
`message` with `field` when `ok` is false. -/
def Validator.CheckField (v : Validator) (ok : Bool) (field msg : String) : Validator :=
  if ok then v else v.AddFieldError field msg

/-- Modelled from the spec: `Valid()` is true iff no field errors and no
non-field errors exist. -/
def Validator.Valid (v : Validator) : Bool :=
  v.fieldErrors.isEmpty && v.nonFieldErrors.isEmpty

/-- Modelled from the spec: the not-blank rule — the value is not empty
and not all whitespace (Go: `strings.TrimSpace(value) != ""`). -/
def NotBlank (value : String) : Bool :=
  value.data.any (fun c => !c.isWhitespace)

/-- Modelled from the spec: the max-length rule — the character count of
the value is at most `n`. -/
def MaxChars (value : String) (n : Nat) : Bool :=
  value.length ≤ n

/-- Modelled from the spec: the min-length rule — the character count of
the value is at least `n`. -/
def MinChars (value : String) (n : Nat) : Bool :=
  value.length ≥ n

/-- Modelled from the spec: the permitted-value-set rule — membership of
the value in an explicit permitted list. -/
def PermittedValue (value : Int) : List Int → Bool
  | [] => false
  | p :: ps => if value = p then true else PermittedValue value ps

/-- Modelled from the spec: the regex-match rule applied to `EmailRX`, an
email-shaped pattern.  The exact regex is not in `src/`; this
approximation (one `@` with non-empty sides) is only ever evaluated at
concrete inputs — no claim depends on the exact language it accepts. -/
def MatchesEmailRX (value : String) : Bool :=
  match value.data.dropWhile (fun c => c ≠ '@') with
  | '@' :: after =>
    value.data.takeWhile (fun c => c ≠ '@') ≠ [] && after ≠ [] &&
      !after.any (fun c => c = '@')
  | _ => false

/-- Modelled from the spec: the equality rule for two strings. -/
def Equal (a b : String) : Bool :=
  a = b

/-!  The models package (`internal/models`), modelled from the
specification section 6: repositories with sentinel "not found" /
"duplicate" / "invalid credentials" conditions. -/

/-- A stored snippet (creation/expiry timestamps are irrelevant to the
handler logic and omitted; `expires` keeps the expiry window in days). -/
structure Snippet where
  id : Int
  title : String
  content : String
  expires : Int
deriving DecidableEq, Repr

/-- A stored user row.  Password hashing happens inside the data-access
layer; the model stores the password as submitted. -/
structure User where
  id : Int
  name : String
  email : String
  password : String
deriving DecidableEq, Repr

/-- Result of `snippets.Get`: the row, the `ErrNoRecord` sentinel, or any
other backend failure. -/
inductive GetSnippetResult where
  | ok (s : Snippet)
  | noRecord
  | otherError
deriving DecidableEq, Repr

/-- Result of `snippets.Insert`: the new id, or any other backend
failure. -/
inductive InsertSnippetResult where
  | ok (id : Int)
  | otherError
deriving DecidableEq, Repr

/-- Result of `users.Insert`: success, the `ErrDuplicateEmail` sentinel,
or any other backend failure. -/
inductive InsertUserResult where
  | ok
  | duplicateEmail
  | otherError
deriving DecidableEq, Repr

/-- Result of `users.Authenticate`: the user id, the
`ErrInvalidCredentials` sentinel, or any other backend failure. -/
inductive AuthResult where
  | ok (id : Int)
  | invalidCredentials
  | otherError
deriving DecidableEq, Repr

/-- Result of `users.PasswordUpdate`: success, the
`ErrInvalidCredentials` sentinel, or any other backend failure. -/
inductive PasswordUpdateResult where
  | ok
  | invalidCredentials
  | otherError
deriving DecidableEq, Repr

/-- Modelled from the spec: `snippets.Get(id)` returns the row with that
id or the "not found" sentinel. -/
def SnippetGet (db : List Snippet) (id : Int) : GetSnippetResult :=
  match db.find? (fun s => s.id = id) with
  | some s => .ok s
  | none => .noRecord

/-- Modelled from the spec: `snippets.Insert(title, content, expires)`
creates a row and returns its id. -/
def SnippetInsert (db : List Snippet) (title content : String) (expires : Int) :
    List Snippet × InsertSnippetResult :=
  let id : Int := (db.length : Int) + 1
  (db ++ [⟨id, title, content, expires⟩], .ok id)

/-- Modelled from the spec: `users.Insert(name, email, password)` creates
a row unless the email is already on file, in which case it reports the
distinguishable duplicate condition and creates nothing. -/
def UserInsert (db : List User) (name email password : String) :
    List User × InsertUserResult :=
  if db.any (fun u => u.email = email) then (db, .duplicateEmail)
  else (db ++ [⟨(db.length : Int) + 1, name, email, password⟩], .ok)

/-- Modelled from the spec: `users.Authenticate(email, password)` returns
the user id when the credentials match a row, otherwise the invalid
credentials condition. -/
def Authenticate (db : List User) (email password : String) : AuthResult :=
  match db.find? (fun u => u.email = email) with
  | some u => if u.password = password then .ok u.id else .invalidCredentials
  | none => .invalidCredentials

/-- Modelled from the spec: `users.PasswordUpdate(id, current, new)`
replaces the password when `current` matches the stored one, otherwise
reports the invalid credentials condition; a missing user is any-other
failure. -/
def PasswordUpdate (db : List User) (id : Int) (current new : String) :
    List User × PasswordUpdateResult :=
  match db.find? (fun u => u.id = id) with
  | some u =>
    if u.password = current then
      (db.map (fun x => if x.id = id then { x with password := new } else x), .ok)
    else (db, .invalidCredentials)
  | none => (db, .otherError)

/-!  `strconv.Atoi`, modelled from the Go standard library: an optional
sign followed by at least one decimal digit, the whole string consumed,
with the 64-bit int range enforced. -/

/-- Read a non-empty all-digit character list as a natural number. -/
def digitsVal : List Char → Option Nat
  | [] => none
  | [c] => if c.isDigit then some (c.toNat - '0'.toNat) else none
  | c :: cs =>
    if c.isDigit then
      match digitsVal cs with
      | some n => some ((c.toNat - '0'.toNat) * 10 ^ cs.length + n)
      | none => none
    else none

/-- `strconv.Atoi`: optional `+`/`-` sign, then decimal digits; fails on
the empty string, a lone sign, any non-digit, or 64-bit overflow. -/
def Atoi (s : String) : Option Int :=
  match s.data with
  | '+' :: rest =>
    match digitsVal rest with
    | some n => if n ≤ 2 ^ 63 - 1 then some (n : Int) else none
    | none => none
  | '-' :: rest =>
    match digitsVal rest with
    | some n => if n ≤ 2 ^ 63 then some (-(n : Int)) else none
    | none => none
  | cs =>
    match digitsVal cs with
    | some n => if n ≤ 2 ^ 63 - 1 then some (n : Int) else none
    | none => none

/-!  The four form structs of `handlers.go`.  Go embeds
`validator.Validator` anonymously with a `form:"-"` tag: the decoder
never touches it, so a decoded form always carries `Validator.empty`.
Following the spec's design note, the embedded validator is modelled as
a named component `validator`. -/

/-- `snippetCreateForm`: title, content and expiry plus the embedded
validator. -/
structure snippetCreateForm where
  Title : String
  Content : String
  Expires : Int
  validator : Validator
deriving DecidableEq, Repr

/-- `userSignupForm`: name, email and password plus the embedded
validator. -/
structure userSignupForm where
  Name : String
  Email : String
  Password : String
  validator : Validator
deriving DecidableEq, Repr

/-- `userLoginForm`: email and password plus the embedded validator. -/
structure userLoginForm where
  Email : String
  Password : String
  validator : Validator
deriving DecidableEq, Repr

/-- `passwordUpdateForm`: current, new and confirmation passwords plus
the embedded validator. -/
structure passwordUpdateForm where
  CurrentPassword : String
  NewPassword : String
  ConfirmPassword : String
  validator : Validator
deriving DecidableEq, Repr

/-!  Decoded form submissions.  `decodePostForm` (a `cmd/web` helper not
under `src/`) either fails — malformed submission — or fills exactly the
tagged fields, leaving the validator at its zero value; a handler
receives the outcome as an `Option` of the field values. -/

/-- Field values of a decoded snippet-create submission. -/
structure snippetCreateInput where
  title : String
  content : String
  expires : Int
deriving DecidableEq, Repr

/-- Field values of a decoded signup submission. -/
structure userSignupInput where
  name : String
  email : String
  password : String
deriving DecidableEq, Repr

/-- Field values of a decoded login submission. -/
structure userLoginInput where
  email : String
  password : String
deriving DecidableEq, Repr

/-- Field values of a decoded password-update submission. -/
structure passwordUpdateInput where
  currentPassword : String
  newPassword : String
  confirmPassword : String
deriving DecidableEq, Repr

/-!  Responses, traced operations, and the world. -/

/-- The data envelope passed to a rendered template, as far as the
handlers populate it. -/
inductive TemplateData where
  | snippetForm (f : snippetCreateForm)
  | signupForm (f : userSignupForm)
  | loginForm (f : userLoginForm)
  | passwordForm (f : passwordUpdateForm)
  | snippetData (s : Snippet)
  | userData (u : User)
  | emptyData
deriving DecidableEq, Repr

/-- The HTTP response a handler produces: a rendered template with a
status, a redirect, a bare client error (`clientError`/`notFound`
helpers, 400 and 404), or the opaque 500 (`serverError`). -/
inductive Response where
  | render (status : Nat) (page : String) (data : TemplateData)
  | redirect (status : Nat) (url : String)
  | clientError (status : Nat)
  | serverError
deriving DecidableEq, Repr

/-- One session or data-access operation performed by a handler,
recorded in execution order. -/
inductive Event where
  | renewToken
  | sessionPut (key : String) (value : SessVal)
  | sessionRemove (key : String)
  | dbSnippetGet (id : Int)
  | dbSnippetInsert (title content : String) (expires : Int)
  | dbUserInsert (name email password : String)
  | dbAuthenticate (email password : String)
  | dbPasswordUpdate (id : Int) (current new : String)
deriving DecidableEq, Repr

/-- The mutable state a request touches: the caller's session, the two
tables behind the data-access layer, and the fresh identifier the
session store would hand out on `RenewToken`. -/
structure World where
  session : Session
  users : List User
  snippets : List Snippet
  nextToken : Nat
deriving DecidableEq, Repr

/-- A handler's complete outcome: response, resulting world, and the
ordered trace of session/data-access operations. -/
structure HOut where
  response : Response
  world : World
  events : List Event
deriving DecidableEq, Repr

/-!  The handlers (`handlers.go`).  Each is a pure function of the world
and its decoded input; `decoded = none` is a `decodePostForm` failure.
`renewOk` stands for the outcome of `sessionManager.RenewToken`. -/

/-- `snippetView` (handlers.go 31-62): parse the id parameter, reject
non-numeric or sub-1 ids and missing rows with 404, otherwise render
the view page. -/
def snippetView (w : World) (idParam : String) : HOut :=
  match Atoi idParam with
  | none => ⟨.clientError 404, w, []⟩
  | some id =>
    if id < 1 then ⟨.clientError 404, w, []⟩
    else
      match SnippetGet w.snippets id with
      | .ok s => ⟨.render 200 "view.html" (.snippetData s), w, [.dbSnippetGet id]⟩
      | .noRecord => ⟨.clientError 404, w, [.dbSnippetGet id]⟩
      | .otherError => ⟨.serverError, w, [.dbSnippetGet id]⟩

/-- `snippetCreate` (handlers.go 64-74): render the empty create form
with the initial expiry of 365 days. -/
def snippetCreate (w : World) : HOut :=
  ⟨.render 200 "create.html"
      (.snippetForm { Title := "", Content := "", Expires := 365, validator := Validator.empty }),
    w, []⟩

/-- The validation block of `snippetCreatePost` (handlers.go 102-107)
applied to a freshly decoded form. -/
def checkSnippetCreateForm (i : snippetCreateInput) : snippetCreateForm :=
  { Title := i.title, Content := i.content, Expires := i.expires,
    validator :=
      ((((Validator.empty.CheckField (NotBlank i.title) "title"
            "This field cannot be blank").CheckField
          (MaxChars i.title 100) "title"
            "This field cannot be more than 100 characters long").CheckField
          (NotBlank i.content) "content"
            "This field cannot be blank").CheckField
          (PermittedValue i.expires [1, 7, 365]) "expires"
            "This field must equal 1, 7 or 365") }

/-- `snippetCreatePost` (handlers.go 88-127): decode, validate, insert,
set the flash, redirect to the new snippet. -/
def snippetCreatePost (w : World) (decoded : Option snippetCreateInput) : HOut :=
  match decoded with
  | none => ⟨.clientError 400, w, []⟩
  | some i =>
    let form := checkSnippetCreateForm i
    if !form.validator.Valid then
      ⟨.render 422 "create.html" (.snippetForm form), w, []⟩
    else
      match SnippetInsert w.snippets form.Title form.Content form.Expires with
      | (db, .ok id) =>
        let s := w.session.put "flash" (.str "Snippet successfully created!")
        ⟨.redirect 303 ("/snippet/view/" ++ toString id),
          { w with snippets := db, session := s },
          [.dbSnippetInsert form.Title form.Content form.Expires,
            .sessionPut "flash" (.str "Snippet successfully created!")]⟩
      | (_, .otherError) =>
        ⟨.serverError, w, [.dbSnippetInsert form.Title form.Content form.Expires]⟩

/-- `userSignup` (handlers.go 138-142): render the empty signup form. -/
def userSignup (w : World) : HOut :=
  ⟨.render 200 "signup.html"
      (.signupForm { Name := "", Email := "", Password := "", validator := Validator.empty }),
    w, []⟩

/-- The validation block of `userSignupPost` (handlers.go 155-159)
applied to a freshly decoded form. -/
def checkUserSignupForm (i : userSignupInput) : userSignupForm :=
  { Name := i.name, Email := i.email, Password := i.password,
    validator :=
      (((((Validator.empty.CheckField (NotBlank i.name) "name"
            "This field cannot be blank").CheckField
          (NotBlank i.email) "email"
            "This field cannot be blank").CheckField
          (MatchesEmailRX i.email) "email"
            "This field must be a valid email address").CheckField
          (NotBlank i.password) "password"
            "This field cannot be blank").CheckField
          (MinChars i.password 8) "password"
            "This field must be at least 8 characters long") }

/-- `userSignupPost` (handlers.go 145-187): decode, validate, insert the
user — surfacing a duplicate email as a field error at 422 — then set
the flash and redirect to the login page. -/
def userSignupPost (w : World) (decoded : Option userSignupInput) : HOut :=
  match decoded with
  | none => ⟨.clientError 400, w, []⟩
  | some i =>
    let form := checkUserSignupForm i
    if !form.validator.Valid then
      ⟨.render 422 "signup.html" (.signupForm form), w, []⟩
    else
      match UserInsert w.users form.Name form.Email form.Password with
      | (db, .ok) =>
        let s := w.session.put "flash" (.str "Your signup was successful. Please log in.")
        ⟨.redirect 303 "/user/login", { w with users := db, session := s },
          [.dbUserInsert form.Name form.Email form.Password,
            .sessionPut "flash" (.str "Your signup was successful. Please log in.")]⟩
      | (db, .duplicateEmail) =>
        let form2 := { form with validator :=
          form.validator.AddFieldError "email" "Email address is already in use" }
        ⟨.render 422 "signup.html" (.signupForm form2), { w with users := db },
          [.dbUserInsert form.Name form.Email form.Password]⟩
      | (_, .otherError) =>
        ⟨.serverError, w, [.dbUserInsert form.Name form.Email form.Password]⟩

/-- `userLogin` (handlers.go 197-201): render the empty login form. -/
def userLogin (w : World) : HOut :=
  ⟨.render 200 "login.html"
      (.loginForm { Email := "", Password := "", validator := Validator.empty }),
    w, []⟩

/-- The validation block of `userLoginPost` (handlers.go 214-216)
applied to a freshly decoded form. -/
def checkUserLoginForm (i : userLoginInput) : userLoginForm :=
  { Email := i.email, Password := i.password,
    validator :=
      (((Validator.empty.CheckField (NotBlank i.email) "email"
            "This field cannot be blank").CheckField
          (MatchesEmailRX i.email) "email"
            "This field must be a valid email address").CheckField
          (NotBlank i.password) "password"
            "This field cannot be blank") }

/-- `userLoginPost` (handlers.go 203-256): decode, validate,
authenticate — rejecting bad credentials with a non-field error at
422 — then renew the session token, store the authenticated user id,
and redirect to the stashed target URL if one is present (read with
`GetString`, which does not delete it) or to the create page. -/
def userLoginPost (w : World) (decoded : Option userLoginInput) (renewOk : Bool) : HOut :=
  match decoded with
  | none => ⟨.clientError 400, w, []⟩
  | some i =>
    let form := checkUserLoginForm i
    if !form.validator.Valid then
      ⟨.render 422 "login.html" (.loginForm form), w, []⟩
    else
      match Authenticate w.users form.Email form.Password with
      | .invalidCredentials =>
        let form2 := { form with validator :=
          form.validator.AddNonFieldError "Email or password is incorrect" }
        ⟨.render 422 "login.html" (.loginForm form2), w,
          [.dbAuthenticate form.Email form.Password]⟩
      | .otherError => ⟨.serverError, w, [.dbAuthenticate form.Email form.Password]⟩
      | .ok id =>
        if renewOk then
          let s2 := (w.session.renewToken w.nextToken).put "authenticatedUserID" (.int id)
          let events : List Event :=
            [.dbAuthenticate form.Email form.Password, .renewToken,
              .sessionPut "authenticatedUserID" (.int id)]
          let targetURL := s2.getString "targetURL"
          if targetURL ≠ "" then
            ⟨.redirect 303 targetURL, { w with session := s2 }, events⟩
          else
            ⟨.redirect 303 "/snippet/create", { w with session := s2 }, events⟩
        else ⟨.serverError, w, [.dbAuthenticate form.Email form.Password]⟩

/-- `userLogoutPost` (handlers.go 258-274): renew the session token,
remove the authenticated user id, set the logout flash, redirect
home. -/
def userLogoutPost (w : World) (renewOk : Bool) : HOut :=
  if renewOk then
    let s3 := (((w.session.renewToken w.nextToken).remove "authenticatedUserID").put
      "flash" (.str "You have been logged out successfully!"))
    ⟨.redirect 303 "/", { w with session := s3 },
      [.renewToken, .sessionRemove "authenticatedUserID",
        .sessionPut "flash" (.str "You have been logged out successfully!")]⟩
  else ⟨.serverError, w, []⟩

/-- `accountPasswordUpdate` (handlers.go 304-308): render the empty
password-update form. -/
def accountPasswordUpdate (w : World) : HOut :=
  ⟨.render 200 "password.html"
      (.passwordForm
        { CurrentPassword := "", NewPassword := "", ConfirmPassword := "",
          validator := Validator.empty }),
    w, []⟩

/-- The validation block of `accountPasswordUpdatePost`
(handlers.go 317-321) applied to a freshly decoded form. -/
def checkPasswordUpdateForm (i : passwordUpdateInput) : passwordUpdateForm :=
  { CurrentPassword := i.currentPassword, NewPassword := i.newPassword,
    ConfirmPassword := i.confirmPassword,
    validator :=
      (((((Validator.empty.CheckField (NotBlank i.currentPassword) "currentPassword"
            "This field cannot be blank").CheckField
          (NotBlank i.newPassword) "newPassword"
            "This field cannot be blank").CheckField
          (NotBlank i.confirmPassword) "newPasswordConfirmation"
            "This field cannot be blank").CheckField
          (MinChars i.newPassword 8) "newPassword"
            "This field must be at least 8 characters long").CheckField
          (Equal i.newPassword i.confirmPassword) "newPasswordConfirmation"
            "Passwords do not match") }

/-- `accountPasswordUpdatePost` (handlers.go 310-348): decode, validate,
update the password of the session's user — surfacing a wrong current
password as a field error at 422 — then set the flash and redirect to
the account page. -/
def accountPasswordUpdatePost (w : World) (decoded : Option passwordUpdateInput) : HOut :=
  match decoded with
  | none => ⟨.clientError 400, w, []⟩
  | some i =>
    let form := checkPasswordUpdateForm i
    if !form.validator.Valid then
      ⟨.render 422 "password.html" (.passwordForm form), w, []⟩
    else
      let userID := w.session.getInt "authenticatedUserID"
      match PasswordUpdate w.users userID form.CurrentPassword form.NewPassword with
      | (db, .ok) =>
        let s := w.session.put "flash" (.str "Your password has been updated successfully!")
        ⟨.redirect 303 "/account/view", { w with users := db, session := s },
          [.dbPasswordUpdate userID form.CurrentPassword form.NewPassword,
            .sessionPut "flash" (.str "Your password has been updated successfully!")]⟩
      | (db, .invalidCredentials) =>
        let form2 := { form with validator :=
          form.validator.AddFieldError "currentPassword" "Current password is incorrect" }
        ⟨.render 422 "password.html" (.passwordForm form2), { w with users := db },
          [.dbPasswordUpdate userID form.CurrentPassword form.NewPassword]⟩
      | (_, .otherError) =>
        ⟨.serverError, w, [.dbPasswordUpdate userID form.CurrentPassword form.NewPassword]⟩

/-- A world whose session stashes an intended destination and whose user
table holds one account, for evaluating the login handler
concretely. -/
def wTarget : World :=
  ⟨⟨0, [("targetURL", .str "/snippet/view/9")]⟩, [⟨1, "Al", "a@b.com", "password1"⟩], [], 5⟩

/-- The same world without a stashed destination. -/
def wNoTarget : World :=
  ⟨⟨0, []⟩, [⟨1, "Al", "a@b.com", "password1"⟩], [], 5⟩

/-!  Helper lemmas about the validator and the session. -/

/-- Appending a singleton never yields the empty list. -/
theorem isEmpty_append_singleton {α : Type} (l : List α) (x : α) :
    (l ++ [x]).isEmpty = false := by
  cases l <;> rfl

/-- Adding a field error always leaves the validator invalid. -/
theorem AddFieldError_Valid (v : Validator) (f m : String) :
    (v.AddFieldError f m).Valid = false := by
  unfold Validator.AddFieldError
  cases hfe : v.fieldErrors with
  | nil => simp [Validator.Valid, hfe, List.find?]
  | cons a l =>
    cases h : (a :: l).find? (fun p => p.1 = f) with
    | some x => simp [h, Validator.Valid, hfe]
    | none => simp [h, hfe, Validator.Valid, isEmpty_append_singleton]

/-- One registered check: the form stays valid iff it was valid and the
check passed. -/
theorem CheckField_Valid (v : Validator) (ok : Bool) (f m : String) :
    (v.CheckField ok f m).Valid = (v.Valid && ok) := by
  cases ok with
  | true => simp [Validator.CheckField]
  | false => simp [Validator.CheckField, AddFieldError_Valid]

/-- A valid validator holds no field errors. -/
theorem Valid_fieldErrors (v : Validator) (h : v.Valid = true) :
    v.fieldErrors = [] := by
  unfold Validator.Valid at h
  cases hfe : v.fieldErrors with
  | nil => rfl
  | cons a l => rw [hfe] at h; simp at h

/-- Looking up a key after every entry under another key was dropped. -/
theorem lookupKey_removeKey_ne (l : List (String × SessVal)) (k k' : String)
    (h : k' ≠ k) : lookupKey (removeKey l k) k' = lookupKey l k' := by
  induction l with
  | nil => rfl
  | cons a t ih =>
    by_cases hk : a.1 = k
    · have hk2 : ¬(a.1 = k') := fun hh => h (hh ▸ hk)
      simp only [removeKey, lookupKey, if_pos hk, if_neg hk2, ih]
    · simp only [removeKey, lookupKey, if_neg hk, ih]

/-- Looking up the key whose entries were all dropped. -/
theorem lookupKey_removeKey_same (l : List (String × SessVal)) (k : String) :
    lookupKey (removeKey l k) k = none := by
  induction l with
  | nil => rfl
  | cons a t ih =>
    by_cases hk : a.1 = k
    · simp only [removeKey, if_pos hk, ih]
    · simp only [removeKey, lookupKey, if_neg hk, ih]

/-- Reading the key just written. -/
theorem Session.get_put_same (s : Session) (k : String) (v : SessVal) :
    (s.put k v).get k = some v := by
  simp [Session.get, Session.put, lookupKey]

/-- Writing one key does not disturb another. -/
theorem Session.get_put_other (s : Session) (k k' : String) (v : SessVal)
    (h : k' ≠ k) : (s.put k v).get k' = s.get k' := by
  have hne : ¬(k = k') := fun hh => h hh.symm
  simp [Session.get, Session.put, lookupKey, hne, lookupKey_removeKey_ne s.data k k' h]

/-- Removing a key removes it. -/
theorem Session.get_remove_same (s : Session) (k : String) :
    (s.remove k).get k = none := by
  simp [Session.get, Session.remove, lookupKey_removeKey_same]

/-- Rotating the token preserves the data. -/
theorem Session.get_renewToken (s : Session) (t : Nat) (k : String) :
    (s.renewToken t).get k = s.get k := rfl

/-- The empty validator is valid. -/
theorem empty_Valid : Validator.empty.Valid = true := rfl

/-- Membership in the snippet expiry list, spelt out. -/
theorem PermittedValue_expiry (x : Int) :
    PermittedValue x [1, 7, 365] = true ↔ (x = 1 ∨ x = 7 ∨ x = 365) := by
  simp only [PermittedValue]
  split_ifs <;> simp_all

/-- Claim C1: a submitted snippet-create form passes the handler's
checks (`Valid()` is true) if and only if the title is non-blank (has a
non-whitespace character) and at most 100 characters long, the content
is non-blank, and the expiry is 1, 7 or 365. -/
theorem snippetCreateForm_Valid_iff (i : snippetCreateInput) :
    (checkSnippetCreateForm i).validator.Valid = true ↔
      ((∃ c ∈ i.title.data, ¬c.isWhitespace) ∧ i.title.length ≤ 100 ∧
        (∃ c ∈ i.content.data, ¬c.isWhitespace) ∧
        (i.expires = 1 ∨ i.expires = 7 ∨ i.expires = 365)) := by
  rw [← PermittedValue_expiry]
  simp only [checkSnippetCreateForm, CheckField_Valid, empty_Valid, Bool.true_and,
    Bool.and_eq_true]
  simp [NotBlank, MaxChars, and_assoc]

/-- Claim C1, witnessed: a concrete form with a short title, non-empty
content and a 7-day expiry is valid. -/
theorem snippetCreateForm_Valid_iff_witness :
    (checkSnippetCreateForm ⟨"hello", "world", 7⟩).validator.Valid = true :=
  (snippetCreateForm_Valid_iff ⟨"hello", "world", 7⟩).mpr (by decide)

/-- Claim C5: a submitted password-update form passes the handler's
checks if and only if all three passwords are non-blank, the new
password is at least 8 characters long, and the new password equals the
confirmation. -/
theorem passwordUpdateForm_Valid_iff (i : passwordUpdateInput) :
    (checkPasswordUpdateForm i).validator.Valid = true ↔
      ((∃ c ∈ i.currentPassword.data, ¬c.isWhitespace) ∧
        (∃ c ∈ i.newPassword.data, ¬c.isWhitespace) ∧
        (∃ c ∈ i.confirmPassword.data, ¬c.isWhitespace) ∧
        8 ≤ i.newPassword.length ∧ i.newPassword = i.confirmPassword) := by
  simp only [checkPasswordUpdateForm, CheckField_Valid, empty_Valid, Bool.true_and,
    Bool.and_eq_true]
  simp [NotBlank, MinChars, Equal, and_assoc]

/-- Claim C5, witnessed: a concrete form with matching 9-character new
passwords is valid. -/
theorem passwordUpdateForm_Valid_iff_witness :
    (checkPasswordUpdateForm ⟨"oldsecret", "newsecret", "newsecret"⟩).validator.Valid = true :=
  (passwordUpdateForm_Valid_iff ⟨"oldsecret", "newsecret", "newsecret"⟩).mpr (by decide)

/-- Claim C2: in each of the four form-submitting POST handlers, a
decoded submission that fails validation is re-rendered on the same
page with HTTP 422, the world (session and both tables) is untouched,
and the operation trace is empty — in particular no `Insert`,
`Authenticate` or `PasswordUpdate` is invoked. -/
theorem invalidForm_rerendered_422_no_backend :
    (∀ (w : World) (i : snippetCreateInput),
        (checkSnippetCreateForm i).validator.Valid = false →
        snippetCreatePost w (some i) =
          ⟨.render 422 "create.html" (.snippetForm (checkSnippetCreateForm i)), w, []⟩) ∧
    (∀ (w : World) (i : userSignupInput),
        (checkUserSignupForm i).validator.Valid = false →
        userSignupPost w (some i) =
          ⟨.render 422 "signup.html" (.signupForm (checkUserSignupForm i)), w, []⟩) ∧
    (∀ (w : World) (i : userLoginInput) (renewOk : Bool),
        (checkUserLoginForm i).validator.Valid = false →
        userLoginPost w (some i) renewOk =
          ⟨.render 422 "login.html" (.loginForm (checkUserLoginForm i)), w, []⟩) ∧
    (∀ (w : World) (i : passwordUpdateInput),
        (checkPasswordUpdateForm i).validator.Valid = false →
        accountPasswordUpdatePost w (some i) =
          ⟨.render 422 "password.html" (.passwordForm (checkPasswordUpdateForm i)), w, []⟩) := by
  refine ⟨?_, ?_, ?_, ?_⟩
  · intro w i h
    simp [snippetCreatePost, h]
  · intro w i h
    simp [userSignupPost, h]
  · intro w i renewOk h
    simp [userLoginPost, h]
  · intro w i h
    simp [accountPasswordUpdatePost, h]

/-- Claim C2, witnessed: a concrete blank submission to each of the four
handlers is re-rendered at 422 with nothing else happening. -/
theorem invalidForm_rerendered_422_no_backend_witness :
    (snippetCreatePost ⟨⟨0, []⟩, [], [], 0⟩ (some ⟨"", "", 2⟩) =
      ⟨.render 422 "create.html" (.snippetForm (checkSnippetCreateForm ⟨"", "", 2⟩)),
        ⟨⟨0, []⟩, [], [], 0⟩, []⟩) ∧
    (userSignupPost ⟨⟨0, []⟩, [], [], 0⟩ (some ⟨"", "", ""⟩) =
      ⟨.render 422 "signup.html" (.signupForm (checkUserSignupForm ⟨"", "", ""⟩)),
        ⟨⟨0, []⟩, [], [], 0⟩, []⟩) ∧
    (userLoginPost ⟨⟨0, []⟩, [], [], 0⟩ (some ⟨"", ""⟩) true =
      ⟨.render 422 "login.html" (.loginForm (checkUserLoginForm ⟨"", ""⟩)),
        ⟨⟨0, []⟩, [], [], 0⟩, []⟩) ∧
    (accountPasswordUpdatePost ⟨⟨0, []⟩, [], [], 0⟩ (some ⟨"", "", ""⟩) =
      ⟨.render 422 "password.html" (.passwordForm (checkPasswordUpdateForm ⟨"", "", ""⟩)),
        ⟨⟨0, []⟩, [], [], 0⟩, []⟩) :=
  ⟨invalidForm_rerendered_422_no_backend.1 _ _ (by decide),
    invalidForm_rerendered_422_no_backend.2.1 _ _ (by decide),
    invalidForm_rerendered_422_no_backend.2.2.1 _ _ true (by decide),
    invalidForm_rerendered_422_no_backend.2.2.2 _ _ (by decide)⟩

/-- Claim C8: in each of the four form-submitting POST handlers, a
submission that fails to decode gets a bare HTTP 400 client error — no
form is re-rendered, nothing is stored, no operation runs — which is a
different outcome from the 422 validation-failure render. -/
theorem decodeFailure_400_no_rerender :
    ∀ (w : World) (renewOk : Bool),
      snippetCreatePost w none = ⟨.clientError 400, w, []⟩ ∧
      userSignupPost w none = ⟨.clientError 400, w, []⟩ ∧
      userLoginPost w none renewOk = ⟨.clientError 400, w, []⟩ ∧
      accountPasswordUpdatePost w none = ⟨.clientError 400, w, []⟩ := by
  intro w renewOk
  exact ⟨rfl, rfl, rfl, rfl⟩

/-- Claim C10: the GET snippet-create handler always renders the form
page with status 200 and the form prefilled with empty title, empty
content and the default expiry of 365. -/
theorem snippetCreate_renders_default_365 :
    ∀ (w : World),
      snippetCreate w =
        ⟨.render 200 "create.html"
            (.snippetForm
              { Title := "", Content := "", Expires := 365,
                validator := Validator.empty }),
          w, []⟩ := by
  intro w
  rfl

/-- The checks leave the decoded title in place. -/
theorem checkSnippetCreateForm_Title (i : snippetCreateInput) :
    (checkSnippetCreateForm i).Title = i.title := rfl

/-- The checks leave the decoded content in place. -/
theorem checkSnippetCreateForm_Content (i : snippetCreateInput) :
    (checkSnippetCreateForm i).Content = i.content := rfl

/-- The checks leave the decoded expiry in place. -/
theorem checkSnippetCreateForm_Expires (i : snippetCreateInput) :
    (checkSnippetCreateForm i).Expires = i.expires := rfl

/-- The checks leave the decoded name in place. -/
theorem checkUserSignupForm_Name (i : userSignupInput) :
    (checkUserSignupForm i).Name = i.name := rfl

/-- The checks leave the decoded email in place. -/
theorem checkUserSignupForm_Email (i : userSignupInput) :
    (checkUserSignupForm i).Email = i.email := rfl

/-- The checks leave the decoded password in place. -/
theorem checkUserSignupForm_Password (i : userSignupInput) :
    (checkUserSignupForm i).Password = i.password := rfl

/-- The checks leave the decoded login email in place. -/
theorem checkUserLoginForm_Email (i : userLoginInput) :
    (checkUserLoginForm i).Email = i.email := rfl

/-- The checks leave the decoded login password in place. -/
theorem checkUserLoginForm_Password (i : userLoginInput) :
    (checkUserLoginForm i).Password = i.password := rfl

/-- The checks leave the decoded current password in place. -/
theorem checkPasswordUpdateForm_CurrentPassword (i : passwordUpdateInput) :
    (checkPasswordUpdateForm i).CurrentPassword = i.currentPassword := rfl

/-- The checks leave the decoded new password in place. -/
theorem checkPasswordUpdateForm_NewPassword (i : passwordUpdateInput) :
    (checkPasswordUpdateForm i).NewPassword = i.newPassword := rfl

/-- `snippets.Get` reports the not-found sentinel when no row has the
requested id. -/
theorem SnippetGet_noRecord (db : List Snippet) (n : Int) (h : ∀ s ∈ db, s.id ≠ n) :
    SnippetGet db n = .noRecord := by
  have hf : db.find? (fun s => s.id = n) = none := by
    rw [List.find?_eq_none]
    intro x hx
    simp [h x hx]
  simp [SnippetGet, hf]

/-- Claim C6: a GET of the snippet-view page answers 404 — with no view
page rendered — whenever the id parameter does not parse as an integer,
parses to a value below 1, or parses to an id no stored snippet has. -/
theorem snippetView_404 (w : World) (idParam : String)
    (h : Atoi idParam = none ∨ (∃ n, Atoi idParam = some n ∧ n < 1) ∨
      (∃ n, Atoi idParam = some n ∧ ∀ s ∈ w.snippets, s.id ≠ n)) :
    (snippetView w idParam).response = .clientError 404 := by
  rcases h with h | ⟨n, hn, hlt⟩ | ⟨n, hn, hno⟩
  · simp [snippetView, h]
  · simp [snippetView, hn, hlt]
  · have hg := SnippetGet_noRecord w.snippets n hno
    by_cases hlt : n < 1
    · simp [snippetView, hn, hlt]
    · simp [snippetView, hn, hlt, hg]

/-- Claim C6, witnessed: on a store holding only snippet 1, the ids
"abc", "0", "-1" and "2" all answer 404. -/
theorem snippetView_404_witness :
    ((snippetView ⟨⟨0, []⟩, [], [⟨1, "t", "c", 7⟩], 0⟩ "abc").response = .clientError 404) ∧
    ((snippetView ⟨⟨0, []⟩, [], [⟨1, "t", "c", 7⟩], 0⟩ "0").response = .clientError 404) ∧
    ((snippetView ⟨⟨0, []⟩, [], [⟨1, "t", "c", 7⟩], 0⟩ "-1").response = .clientError 404) ∧
    ((snippetView ⟨⟨0, []⟩, [], [⟨1, "t", "c", 7⟩], 0⟩ "2").response = .clientError 404) :=
  ⟨snippetView_404 _ _ (Or.inl (by decide)),
    snippetView_404 _ _ (Or.inr (Or.inl ⟨0, by decide, by decide⟩)),
    snippetView_404 _ _ (Or.inr (Or.inl ⟨-1, by decide, by decide⟩)),
    snippetView_404 _ _ (Or.inr (Or.inr ⟨2, by decide, by decide⟩))⟩

/-- Claim C7: a valid signup whose email is already on file is answered
with HTTP 422, the re-rendered form carries the duplicate-email message
under the field key "email", and the world — the user table in
particular — is left exactly as it was: no new row is created. -/
theorem signup_duplicate_email_422 (w : World) (i : userSignupInput)
    (hV : (checkUserSignupForm i).validator.Valid = true)
    (hDup : w.users.any (fun u => u.email = i.email) = true) :
    (∃ f, (userSignupPost w (some i)).response = .render 422 "signup.html" (.signupForm f) ∧
      ("email", "Email address is already in use") ∈ f.validator.fieldErrors) ∧
    (userSignupPost w (some i)).world = w := by
  have hfe : (checkUserSignupForm i).validator.fieldErrors = [] := Valid_fieldErrors _ hV
  refine ⟨⟨{ checkUserSignupForm i with validator := (checkUserSignupForm i).validator.AddFieldError "email" "Email address is already in use" }, ?_, ?_⟩, ?_⟩
  · simp [userSignupPost, hV, UserInsert, checkUserSignupForm_Email, hDup]
  · simp [Validator.AddFieldError, hfe, List.find?]
  · simp [userSignupPost, hV, UserInsert, checkUserSignupForm_Email, hDup]

/-- Claim C7, witnessed: signing up "Bo" with the email already used by
user 1 is answered at 422 with the "email" field error and an unchanged
user table. -/
theorem signup_duplicate_email_422_witness :
    (∃ f, (userSignupPost ⟨⟨0, []⟩, [⟨1, "Al", "a@b.com", "password1"⟩], [], 0⟩
        (some ⟨"Bo", "a@b.com", "password2"⟩)).response =
          .render 422 "signup.html" (.signupForm f) ∧
      ("email", "Email address is already in use") ∈ f.validator.fieldErrors) ∧
    (userSignupPost ⟨⟨0, []⟩, [⟨1, "Al", "a@b.com", "password1"⟩], [], 0⟩
        (some ⟨"Bo", "a@b.com", "password2"⟩)).world =
      ⟨⟨0, []⟩, [⟨1, "Al", "a@b.com", "password1"⟩], [], 0⟩ :=
  signup_duplicate_email_422 _ _ (by decide) (by decide)

/-- Claim C9: a decoded, validated login rejected by `Authenticate` with
the invalid-credentials sentinel is answered at 422 with the generic
non-field error; the world — and so the session, its token and every
key — is exactly the input world, and the trace holds only the
`Authenticate` call: no token renewal and no session write or
removal happened. -/
theorem login_invalid_credentials_session_untouched (w : World) (i : userLoginInput)
    (renewOk : Bool)
    (hV : (checkUserLoginForm i).validator.Valid = true)
    (hA : Authenticate w.users i.email i.password = .invalidCredentials) :
    userLoginPost w (some i) renewOk =
      ⟨.render 422 "login.html"
          (.loginForm { checkUserLoginForm i with validator := (checkUserLoginForm i).validator.AddNonFieldError "Email or password is incorrect" }),
        w, [.dbAuthenticate i.email i.password]⟩ := by
  simp [userLoginPost, hV, checkUserLoginForm_Email, checkUserLoginForm_Password, hA]

/-- Claim C9, witnessed: logging in with a wrong password for user 1
yields exactly the 422 render, the untouched world and the lone
`Authenticate` call. -/
theorem login_invalid_credentials_session_untouched_witness :
    userLoginPost ⟨⟨0, []⟩, [⟨1, "Al", "a@b.com", "password1"⟩], [], 0⟩
        (some ⟨"a@b.com", "wrongpass"⟩) true =
      ⟨.render 422 "login.html"
          (.loginForm { checkUserLoginForm ⟨"a@b.com", "wrongpass"⟩ with validator := (checkUserLoginForm ⟨"a@b.com", "wrongpass"⟩).validator.AddNonFieldError "Email or password is incorrect" }),
        ⟨⟨0, []⟩, [⟨1, "Al", "a@b.com", "password1"⟩], [], 0⟩,
        [.dbAuthenticate "a@b.com" "wrongpass"]⟩ :=
  login_invalid_credentials_session_untouched _ _ true (by decide) (by decide)

/-- `GetString` of one key is unaffected by a `Put` under another. -/
theorem Session.getString_put_other (s : Session) (k k' : String) (v : SessVal)
    (h : k' ≠ k) : (s.put k v).getString k' = s.getString k' := by
  unfold Session.getString
  rw [Session.get_put_other s k k' v h]

/-- The trace of a successful login: the `Authenticate` call, then the
token renewal, then the storing of the authenticated user id. -/
theorem userLoginPost_ok_events (w : World) (i : userLoginInput) (uid : Int)
    (hV : (checkUserLoginForm i).validator.Valid = true)
    (hA : Authenticate w.users i.email i.password = .ok uid) :
    (userLoginPost w (some i) true).events =
      [.dbAuthenticate i.email i.password, .renewToken,
        .sessionPut "authenticatedUserID" (.int uid)] := by
  simp [userLoginPost, hV, checkUserLoginForm_Email, checkUserLoginForm_Password, hA,
    apply_ite HOut.events]

/-- The world after a successful login: only the session changed — token
renewed, then the user id stored. -/
theorem userLoginPost_ok_world (w : World) (i : userLoginInput) (uid : Int)
    (hV : (checkUserLoginForm i).validator.Valid = true)
    (hA : Authenticate w.users i.email i.password = .ok uid) :
    (userLoginPost w (some i) true).world =
      { w with session := (w.session.renewToken w.nextToken).put "authenticatedUserID" (.int uid) } := by
  simp [userLoginPost, hV, checkUserLoginForm_Email, checkUserLoginForm_Password, hA,
    apply_ite HOut.world]

/-- The response of a successful login: 303 to the stashed target URL if
one is present, else 303 to the create page. -/
theorem userLoginPost_ok_response (w : World) (i : userLoginInput) (uid : Int)
    (hV : (checkUserLoginForm i).validator.Valid = true)
    (hA : Authenticate w.users i.email i.password = .ok uid) :
    (userLoginPost w (some i) true).response =
      (if w.session.getString "targetURL" ≠ "" then
        .redirect 303 (w.session.getString "targetURL")
      else .redirect 303 "/snippet/create") := by
  have hs : ((w.session.renewToken w.nextToken).put "authenticatedUserID"
      (.int uid)).getString "targetURL" = w.session.getString "targetURL" :=
    Session.getString_put_other _ _ _ _ (by decide)
  simp [userLoginPost, hV, checkUserLoginForm_Email, checkUserLoginForm_Password, hA,
    apply_ite HOut.response, hs]

/-- Claim C3: every successful login renews the session token strictly
before the authenticated user id is put into the session (and the id is
put); every completed logout renews the token strictly before the id is
removed, and afterwards the session no longer contains the
`authenticatedUserID` key. -/
theorem renewToken_before_auth_change :
    (∀ (w : World) (i : userLoginInput) (uid : Int),
        (checkUserLoginForm i).validator.Valid = true →
        Authenticate w.users i.email i.password = .ok uid →
        ∃ jr jp : Nat, jr < jp ∧
          (userLoginPost w (some i) true).events[jr]? = some Event.renewToken ∧
          (userLoginPost w (some i) true).events[jp]? =
            some (Event.sessionPut "authenticatedUserID" (.int uid)) ∧
          ∀ (j : Nat) (v : SessVal), (userLoginPost w (some i) true).events[j]? =
              some (Event.sessionPut "authenticatedUserID" v) → jr < j) ∧
    (∀ w : World,
        ∃ jr jp : Nat, jr < jp ∧
          (userLogoutPost w true).events[jr]? = some Event.renewToken ∧
          (userLogoutPost w true).events[jp]? =
            some (Event.sessionRemove "authenticatedUserID") ∧
          (∀ j : Nat, (userLogoutPost w true).events[j]? =
              some (Event.sessionRemove "authenticatedUserID") → jr < j) ∧
          (userLogoutPost w true).world.session.get "authenticatedUserID" = none) := by
  constructor
  · intro w i uid hV hA
    rw [userLoginPost_ok_events w i uid hV hA]
    refine ⟨1, 2, by omega, rfl, rfl, ?_⟩
    intro j v hj
    rcases j with _ | _ | _ | j
    · simp at hj
    · simp at hj
    · omega
    · simp at hj
  · intro w
    have hev : (userLogoutPost w true).events =
        [.renewToken, .sessionRemove "authenticatedUserID",
          .sessionPut "flash" (.str "You have been logged out successfully!")] := rfl
    rw [hev]
    refine ⟨0, 1, by omega, rfl, rfl, ?_, ?_⟩
    · intro j hj
      rcases j with _ | j
      · simp at hj
      · omega
    · have hw : (userLogoutPost w true).world.session =
          (((w.session.renewToken w.nextToken).remove "authenticatedUserID").put "flash"
            (.str "You have been logged out successfully!")) := rfl
      rw [hw, Session.get_put_other _ _ _ _ (by decide), Session.get_remove_same]

/-- Claim C3, witnessed: the concrete successful login and a concrete
logout both renew the token before touching the stored user id, and the
logged-out session lacks the key. -/
theorem renewToken_before_auth_change_witness :
    (∃ jr jp : Nat, jr < jp ∧
      (userLoginPost wNoTarget (some ⟨"a@b.com", "password1"⟩) true).events[jr]? =
        some Event.renewToken ∧
      (userLoginPost wNoTarget (some ⟨"a@b.com", "password1"⟩) true).events[jp]? =
        some (Event.sessionPut "authenticatedUserID" (.int 1)) ∧
      ∀ (j : Nat) (v : SessVal), (userLoginPost wNoTarget (some ⟨"a@b.com", "password1"⟩) true).events[j]? =
          some (Event.sessionPut "authenticatedUserID" v) → jr < j) ∧
    (∃ jr jp : Nat, jr < jp ∧
      (userLogoutPost wNoTarget true).events[jr]? = some Event.renewToken ∧
      (userLogoutPost wNoTarget true).events[jp]? =
        some (Event.sessionRemove "authenticatedUserID") ∧
      (∀ j : Nat, (userLogoutPost wNoTarget true).events[j]? =
          some (Event.sessionRemove "authenticatedUserID") → jr < j) ∧
      (userLogoutPost wNoTarget true).world.session.get "authenticatedUserID" = none) :=
  ⟨renewToken_before_auth_change.1 wNoTarget ⟨"a@b.com", "password1"⟩ 1 (by decide) (by decide),
    renewToken_before_auth_change.2 wNoTarget⟩

/-- Claim C4, counterexample: at a concrete successful login with
"/snippet/view/9" stashed under `targetURL`, the handler does issue the
303 redirect there, but the value is still in the session afterwards —
the handler reads it with `GetString`, which does not delete it — so
the claim's "removes the value from the session" is false. -/
theorem login_targetURL_not_removed :
    (userLoginPost wTarget (some ⟨"a@b.com", "password1"⟩) true).response =
      .redirect 303 "/snippet/view/9" ∧
    (userLoginPost wTarget (some ⟨"a@b.com", "password1"⟩) true).world.session.get
      "targetURL" = some (.str "/snippet/view/9") := by
  constructor
  · decide
  · decide

/-- Claim C4 as amended: on a successful login, a non-empty stashed
`targetURL` is answered with a 303 redirect to it and the value stays
in the session unchanged; with no stashed value the handler answers 303
to /snippet/create. -/
theorem login_redirect_target_or_default (w : World) (i : userLoginInput) (uid : Int)
    (hV : (checkUserLoginForm i).validator.Valid = true)
    (hA : Authenticate w.users i.email i.password = .ok uid) :
    (w.session.getString "targetURL" ≠ "" →
      (userLoginPost w (some i) true).response =
        .redirect 303 (w.session.getString "targetURL") ∧
      (userLoginPost w (some i) true).world.session.get "targetURL" =
        w.session.get "targetURL") ∧
    (w.session.getString "targetURL" = "" →
      (userLoginPost w (some i) true).response = .redirect 303 "/snippet/create") := by
  have hresp := userLoginPost_ok_response w i uid hV hA
  have hworld := userLoginPost_ok_world w i uid hV hA
  constructor
  · intro hne
    constructor
    · rw [hresp, if_pos hne]
    · rw [hworld]
      show ((w.session.renewToken w.nextToken).put "authenticatedUserID"
        (.int uid)).get "targetURL" = w.session.get "targetURL"
      rw [Session.get_put_other _ _ _ _ (by decide)]
      rfl
  · intro heq
    rw [hresp, if_neg]
    simp [heq]

/-- Claim C4 as amended, witnessed: with the stash present the concrete
login redirects to it and leaves it stored; without it the login
redirects to the create page. -/
theorem login_redirect_target_or_default_witness :
    ((userLoginPost wTarget (some ⟨"a@b.com", "password1"⟩) true).response =
        .redirect 303 (wTarget.session.getString "targetURL") ∧
      (userLoginPost wTarget (some ⟨"a@b.com", "password1"⟩) true).world.session.get
        "targetURL" = wTarget.session.get "targetURL") ∧
    (userLoginPost wNoTarget (some ⟨"a@b.com", "password1"⟩) true).response =
      .redirect 303 "/snippet/create" :=
  ⟨(login_redirect_target_or_default wTarget ⟨"a@b.com", "password1"⟩ 1
      (by decide) (by decide)).1 (by decide),
    (login_redirect_target_or_default wNoTarget ⟨"a@b.com", "password1"⟩ 1
      (by decide) (by decide)).2 (by decide)⟩

end Snippetbox
